import Mathlib

/-!
# Verification of the clickupy HTTP client (`src/clickupy/client.py`)

Shallow embedding of the pure decision logic of the `ClickUpClient` class:
the four request-dispatch helpers (`__get_request`, `__post_request`,
`__put_request`, `__delete_request`), the request-body builders of the
resource methods (`create_list`, `create_task`, `update_task`,
`update_comment`, `create_task_comment`), the priority precondition, and
`upload_attachment`'s filesystem guard.

The HTTP layer is modelled by passing the server's `Response` (status code,
the `err` field of the parsed JSON body, and the parsed JSON body itself)
as an explicit argument; each dispatcher is then a pure function from the
response to an outcome.  Python exceptions are modelled by the `PyResult`
sum type: a normal return value, a raised `ClickupClientError` (message and
second constructor argument), or a raised `NameError` on an undefined
local variable.  Python truthiness (`if priority`, `if due_date`,
`if add_assignees`, `if uploaded_attachment`) is embedded explicitly.
-/

namespace Clickupy

/-- JSON values, as produced by `json.dumps` on the Python dicts the client
builds.  Python `None` inside a dict serializes to `null`. -/
inductive JVal where
  | null
  | bool (b : Bool)
  | num (n : Int)
  | str (s : String)
  | arr (elems : List JVal)
  | obj (fields : List (String × JVal))

/-- Python truthiness of a JSON-shaped value: `None`, `False`, `0`, `""`,
`[]` and `{}` are falsy, everything else is truthy. -/
def jTruthy : JVal → Bool
  | .null => false
  | .bool b => b
  | .num n => n != 0
  | .str s => !s.isEmpty
  | .arr elems => !elems.isEmpty
  | .obj fields => !fields.isEmpty

/-- The second constructor argument of `exceptions.ClickupClientError`: the
client passes an HTTP status code at the dispatch sites and the string
`"Priority out of range"` at the priority-precondition sites. -/
inductive ErrArg where
  | code (status : Nat)
  | text (s : String)

/-- Outcome of running a piece of client code: a normal return value, a
raised `ClickupClientError` (message, second argument), or a Python
`NameError` caused by reading an undefined local variable. -/
inductive PyResult (α : Type) where
  | ok (a : α)
  | clickupError (message : String) (arg : ErrArg)
  | nameError (var : String)

/-- An HTTP response as seen by the dispatcher: its status code, the `err`
field of the parsed JSON body (`response_json['err']`), and the parsed
JSON body (`response.json()`). -/
structure Response where
  status_code : Nat
  err : String
  json : JVal

/-- `requests.Response.ok`: true exactly when the status code is below 400
(no 4xx/5xx client or server error). -/
def Response.ok (r : Response) : Bool := r.status_code < 400

/-- `ClickUpClient.__get_request` (client.py lines 38-50): 429 raises the
rate-limit error, 401/400 raise with the server's `err` message, `ok`
responses return the parsed body, everything else falls through to `None`. -/
def get_request (r : Response) : PyResult (Option JVal) :=
  if r.status_code == 429 then
    .clickupError "Rate limit exceeded" (.code r.status_code)
  else if r.status_code == 401 || r.status_code == 400 then
    .clickupError r.err (.code r.status_code)
  else if r.ok then .ok (some r.json)
  else .ok none

/-- `ClickUpClient.__post_request` (client.py lines 53-69): 401/400/500
raise with the server's `err` message, `ok` responses return the parsed
body, everything else falls through to `None`. -/
def post_request (r : Response) : PyResult (Option JVal) :=
  if r.status_code == 401 || r.status_code == 400 || r.status_code == 500 then
    .clickupError r.err (.code r.status_code)
  else if r.ok then .ok (some r.json)
  else .ok none

/-- `ClickUpClient.__put_request` (client.py lines 72-80): 401/400 raise
with the server's `err` message, `ok` responses return the parsed body,
everything else falls through to `None`. -/
def put_request (r : Response) : PyResult (Option JVal) :=
  if r.status_code == 401 || r.status_code == 400 then
    .clickupError r.err (.code r.status_code)
  else if r.ok then .ok (some r.json)
  else .ok none

/-- `ClickUpClient.__delete_request` (client.py lines 83-90): `ok`
responses return the status code; otherwise the method executes
`raise exceptions.ClickupClientError(response_json['err'], ...)` where the
local `response_json` was never assigned, so Python raises
`NameError` for `response_json` instead. -/
def delete_request (r : Response) : PyResult Nat :=
  if r.ok then .ok r.status_code
  else .nameError "response_json"

/-! ## Request bodies of the resource methods -/

/-- The dict comprehension `{k: v for k, v in arguments.items() if v is not None}`
shared by `create_task`, `update_task`, `update_comment` and
`create_task_comment`: entries whose value is `None` are dropped. -/
def pyFilterNone (args : List (String × Option JVal)) : List (String × JVal) :=
  args.filterMap (fun kv => kv.2.map (fun v => (kv.1, v)))

/-- `k in body`: whether the serialized body has an entry with key `k`. -/
def hasKey (body : List (String × JVal)) (k : String) : Bool :=
  body.any (fun kv => kv.1 == k)

/-- `body[k]`: the value of the first entry with key `k`, if any. -/
def getKey (body : List (String × JVal)) (k : String) : Option JVal :=
  (body.find? (fun kv => kv.1 == k)).map (fun kv => kv.2)

@[simp] theorem pyFilterNone_nil : pyFilterNone [] = [] := rfl

@[simp] theorem pyFilterNone_cons_none (k : String) (args : List (String × Option JVal)) :
    pyFilterNone ((k, none) :: args) = pyFilterNone args := rfl

@[simp] theorem pyFilterNone_cons_some (k : String) (v : JVal)
    (args : List (String × Option JVal)) :
    pyFilterNone ((k, some v) :: args) = (k, v) :: pyFilterNone args := rfl

theorem hasKey_pyFilterNone (args : List (String × Option JVal)) (k : String) :
    hasKey (pyFilterNone args) k = args.any (fun kv => kv.1 == k && kv.2.isSome) := by
  induction args with
  | nil => rfl
  | cons kv rest ih =>
    obtain ⟨k', v⟩ := kv
    cases v with
    | none => simpa [hasKey] using ih
    | some x =>
      by_cases h : k' == k
      · simp [hasKey, h]
      · simp only [pyFilterNone_cons_some, hasKey, List.any_cons] at ih ⊢
        simp [h, ih]

theorem getKey_pyFilterNone (args : List (String × Option JVal)) (k : String) :
    getKey (pyFilterNone args) k
      = (args.find? (fun kv => kv.1 == k && kv.2.isSome)).bind (fun kv => kv.2) := by
  induction args with
  | nil => rfl
  | cons kv rest ih =>
    obtain ⟨k', v⟩ := kv
    cases v with
    | none => simpa [getKey] using ih
    | some x =>
      by_cases h : k' == k
      · simp [getKey, List.find?, h]
      · simp only [pyFilterNone_cons_some, getKey] at ih ⊢
        simp [List.find?, h, ih]

/-- The client-side priority precondition of `create_task` and
`update_task` (client.py lines 291 and 334):
`if priority and priority not in range(1, 4)`.  Python truthiness makes
`priority == 0` skip the check, and `range(1, 4)` contains only 1, 2, 3. -/
def priorityOutOfRange (priority : Option Int) : Bool :=
  match priority with
  | none => false
  | some p => p != 0 && !(decide (1 ≤ p) && decide (p < 4))

/-- Modelled from the spec: `fuzzy_time_to_unix` lives in
`clickupy.helpers.timefuncs`, which is not under `src/`; the spec says the
client "converts human-friendly date expressions to the epoch-millisecond
format the API expects".  The unspecified parsing is abstracted as a
function `specMillis` from the expression to its epoch-millisecond value;
the conversion's output is that numeric value. -/
def fuzzy_time_to_unix (specMillis : String → Int) (s : String) : JVal :=
  .num (specMillis s)

/-- The `arguments` dict of `create_task` (client.py lines 288-304) after
the pops of `self`, `arguments` and `list_id`, with entry values still
optional (`None` entries are removed afterwards by `pyFilterNone`).
`due_date` was reassigned before `vars()` is taken: a truthy (non-`None`,
non-empty) value is replaced by `fuzzy_time_to_unix(due_date)`. -/
def create_task_args (specMillis : String → Int)
    (name description : Option JVal) (priority : Option Int)
    (assignees tags status : Option JVal) (due_date : Option String)
    (start_date notify_all : Option JVal) : List (String × Option JVal) :=
  [("name", name),
   ("description", description),
   ("priority", priority.map .num),
   ("assignees", assignees),
   ("tags", tags),
   ("status", status),
   ("due_date", due_date.map (fun s =>
      if s.isEmpty then .str s else fuzzy_time_to_unix specMillis s)),
   ("start_date", start_date),
   ("notify_all", notify_all)]

/-- The serialized request body of `create_task` once the priority
precondition has passed. -/
def create_task_body (specMillis : String → Int)
    (name description : Option JVal) (priority : Option Int)
    (assignees tags status : Option JVal) (due_date : Option String)
    (start_date notify_all : Option JVal) : List (String × JVal) :=
  pyFilterNone (create_task_args specMillis name description priority
    assignees tags status due_date start_date notify_all)

/-- `ClickUpClient.create_task` (client.py lines 288-308) up to the point
where the body is handed to `__post_request`: the priority precondition may
raise, otherwise the serialized body is produced. -/
def create_task (specMillis : String → Int)
    (name description : Option JVal) (priority : Option Int)
    (assignees tags status : Option JVal) (due_date : Option String)
    (start_date notify_all : Option JVal) : PyResult (List (String × JVal)) :=
  if priorityOutOfRange priority then
    .clickupError "Priority must be in range of 0-4." (.text "Priority out of range")
  else
    .ok (create_task_body specMillis name description priority
      assignees tags status due_date start_date notify_all)

/-- Python truthiness of an optional list argument: `None` and `[]` are
falsy. -/
def listTruthy (x : Option (List JVal)) : Bool :=
  match x with
  | none => false
  | some elems => !elems.isEmpty

/-- The `assignees` entry `update_task` adds (client.py lines 346-352):
the `if add_assignees and remove_assignees / elif add_assignees /
elif remove_assignees` chain, with Python truthiness on the lists. -/
def assigneesVal (add_assignees remove_assignees : Option (List JVal)) : Option JVal :=
  if listTruthy add_assignees && listTruthy remove_assignees then
    some (.obj [("add", .arr (add_assignees.getD [])),
                ("rem", .arr (remove_assignees.getD []))])
  else if listTruthy add_assignees then
    some (.obj [("add", .arr (add_assignees.getD []))])
  else if listTruthy remove_assignees then
    some (.obj [("rem", .arr (remove_assignees.getD []))])
  else none

/-- The `arguments` dict of `update_task` (client.py lines 338-355) after
the pops of `self`, `arguments`, `task_id`, `add_assignees` and
`remove_assignees`, and the conditional insertion of `assignees`. -/
def update_task_args (name description status : Option JVal) (priority : Option Int)
    (time_estimate archived : Option JVal)
    (add_assignees remove_assignees : Option (List JVal)) :
    List (String × Option JVal) :=
  [("name", name),
   ("description", description),
   ("status", status),
   ("priority", priority.map .num),
   ("time_estimate", time_estimate),
   ("archived", archived),
   ("assignees", assigneesVal add_assignees remove_assignees)]

/-- The serialized request body of `update_task` once the priority
precondition has passed. -/
def update_task_body (name description status : Option JVal) (priority : Option Int)
    (time_estimate archived : Option JVal)
    (add_assignees remove_assignees : Option (List JVal)) : List (String × JVal) :=
  pyFilterNone (update_task_args name description status priority
    time_estimate archived add_assignees remove_assignees)

/-- `ClickUpClient.update_task` (client.py lines 313-359) up to the point
where the body is handed to `__put_request`. -/
def update_task (name description status : Option JVal) (priority : Option Int)
    (time_estimate archived : Option JVal)
    (add_assignees remove_assignees : Option (List JVal)) :
    PyResult (List (String × JVal)) :=
  if priorityOutOfRange priority then
    .clickupError "Priority must be in range of 0-4." (.text "Priority out of range")
  else
    .ok (update_task_body name description status priority
      time_estimate archived add_assignees remove_assignees)

/-- The serialized request body of `update_comment`
(client.py lines 399-410): the `arguments` dict after popping `self`,
`arguments` and `comment_id`, filtered of `None` values. -/
def update_comment_body (comment_text assignee resolved : Option JVal) :
    List (String × JVal) :=
  pyFilterNone [("comment_text", comment_text), ("assignee", assignee),
                ("resolved", resolved)]

/-- The serialized request body of `create_task_comment`
(client.py lines 424-435): the `arguments` dict after popping `self`,
`arguments` and `task_id`, filtered of `None` values. -/
def create_task_comment_body (comment_text assignee notify_all : Option JVal) :
    List (String × JVal) :=
  pyFilterNone [("comment_text", comment_text), ("assignee", assignee),
                ("notify_all", notify_all)]

/-- The request body of `create_list` (client.py lines 135-140): a dict
literal with the four keys `name`, `content`, `due_date`, `status`; `None`
values are kept (they serialize to `null`) and the `priority` parameter of
the method never enters the dict. -/
def create_list_data (name content due_date : Option JVal) (priority : Option Int)
    (status : Option JVal) : List (String × JVal) :=
  [("name", name.getD .null),
   ("content", content.getD .null),
   ("due_date", due_date.getD .null),
   ("status", status.getD .null)]

/-! ## Request URL construction -/

/-- The module-level constant `API_URL` (client.py line 19). -/
def API_URL : String := "https://api.clickup.com/api/v2/"

/-- The client state set up by `ClickUpClient.__init__`
(client.py lines 24-26): both constructor arguments are stored. -/
structure ClickUpClient where
  api_url : String
  accesstoken : String

/-- Modelled from the spec: `url_join` lives in `clickupy.helpers.formatting`,
which is not under `src/`; the spec says the dispatcher performs "one HTTP
call against the API root plus a resource path and optional path segments",
so the join is modelled as concatenating the base, the resource path, and
the slash-separated additional segments. -/
def url_join (base model : String) (additionalpath : List String) : String :=
  base ++ model ++ String.intercalate "/" additionalpath

/-- The request path built by every dispatcher method
(client.py lines 40, 54, 73, 84):
`formatting.url_join(API_URL, model, *additionalpath)` — the module-level
`API_URL`, not `self.api_url`. -/
def request_path (self : ClickUpClient) (model : String)
    (additionalpath : List String) : String :=
  url_join API_URL model additionalpath

/-! ## upload_attachment -/

/-- `ClickUpClient.upload_attachment` (client.py lines 231-257).  The local
filesystem is an explicit predicate `exists_fs` (`os.path.exists`), the
attachment builder (`attachment.build_attachment`, defined outside
`client.py`) an explicit function, and the response the one POST request
would receive an explicit argument.  The first component counts HTTP
requests issued.  When the file exists, one POST is issued; a falsy
(`None` or empty) `uploaded_attachment` leaves the local
`final_attachment` unassigned, so `return final_attachment` raises
`NameError`.  When the file does not exist, the body of the method is
skipped entirely and it returns `None`. -/
def upload_attachment (exists_fs : String → Bool) (build : JVal → JVal)
    (file_path : String) (post_response : Response) :
    Nat × PyResult (Option JVal) :=
  if exists_fs file_path then
    match post_request post_response with
    | .ok (some j) =>
        if jTruthy j then (1, .ok (some (build j)))
        else (1, .nameError "final_attachment")
    | .ok none => (1, .nameError "final_attachment")
    | .clickupError m c => (1, .clickupError m c)
    | .nameError v => (1, .nameError v)
  else (0, .ok none)

/-! ## Claims -/

/-- C1: the claim says a non-null priority outside 1–4 raises before any
request and any priority inside 1–4 passes.  The code's check
`if priority and priority not in range(1, 4)` instead raises on
priority 4 (documented as valid: `range(1, 4)` is only 1, 2, 3) and lets
priority 0 through silently (0 is falsy).  This theorem evaluates
`create_task` and `update_task` at the failing inputs: priority 4 raises
the error, priority 0 proceeds, priority 2 proceeds. -/
theorem claim_C1_priority_range_bug :
    create_task (fun _ => 0) none none (some 4) none none none none none none
      = .clickupError "Priority must be in range of 0-4." (.text "Priority out of range")
    ∧ update_task none none none (some 4) none none none none
      = .clickupError "Priority must be in range of 0-4." (.text "Priority out of range")
    ∧ update_task none none none (some 0) none none none none
      = .ok [("priority", .num 0)]
    ∧ update_task none none none (some 2) none none none none
      = .ok [("priority", .num 2)] :=
  ⟨rfl, rfl, rfl, rfl⟩

/-- C2 counterexample: the claim says every dispatcher method raises the
rate-limit error on a 429 response, but `__put_request` checks only
401/400 and `response.ok` is false at 429, so the call returns `None`;
`__post_request` behaves the same way. -/
theorem claim_C2_counterexample :
    put_request ⟨429, "err", .null⟩ = .ok none
    ∧ post_request ⟨429, "err", .null⟩ = .ok none :=
  ⟨rfl, rfl⟩

/-- C2 (amended): on a 429 response only `__get_request` raises the
rate-limit error carrying status 429; `__post_request` and `__put_request`
silently return `None`, and `__delete_request` raises a `NameError` on the
undefined local `response_json`. -/
theorem claim_C2_429_only_get (r : Response) (h : r.status_code = 429) :
    get_request r = .clickupError "Rate limit exceeded" (.code 429)
    ∧ post_request r = .ok none
    ∧ put_request r = .ok none
    ∧ delete_request r = .nameError "response_json" := by
  obtain ⟨s, e, j⟩ := r
  simp only at h
  subst h
  exact ⟨rfl, rfl, rfl, rfl⟩

/-- C2 witness: the amended statement at a concrete 429 response. -/
theorem claim_C2_429_only_get_witness :
    get_request ⟨429, "e", .null⟩ = .clickupError "Rate limit exceeded" (.code 429)
    ∧ post_request ⟨429, "e", .null⟩ = .ok none
    ∧ put_request ⟨429, "e", .null⟩ = .ok none
    ∧ delete_request ⟨429, "e", .null⟩ = .nameError "response_json" :=
  claim_C2_429_only_get ⟨429, "e", .null⟩ rfl

/-- C3 counterexample: the claim says every write method raises the typed
error on 500, but `__put_request` checks only 401/400, and 500 is not
`ok`, so the call silently returns `None`. -/
theorem claim_C3_counterexample :
    put_request ⟨500, "Internal server error", .null⟩ = .ok none := rfl

/-- C3 (amended): on a 400 or 401 response, `__get_request`,
`__post_request` and `__put_request` raise the typed error with the
server-provided `err` message and the status code, while
`__delete_request` raises a `NameError` on the undefined local
`response_json`; on a 500 response `__post_request` raises the typed
error but `__put_request` returns `None` and `__delete_request` again
raises the `NameError`. -/
theorem claim_C3_error_statuses (r : Response)
    (h : r.status_code = 400 ∨ r.status_code = 401)
    (r5 : Response) (h5 : r5.status_code = 500) :
    get_request r = .clickupError r.err (.code r.status_code)
    ∧ post_request r = .clickupError r.err (.code r.status_code)
    ∧ put_request r = .clickupError r.err (.code r.status_code)
    ∧ delete_request r = .nameError "response_json"
    ∧ post_request r5 = .clickupError r5.err (.code 500)
    ∧ put_request r5 = .ok none
    ∧ delete_request r5 = .nameError "response_json" := by
  obtain ⟨s, e, j⟩ := r
  obtain ⟨s5, e5, j5⟩ := r5
  simp only at h h5
  subst h5
  rcases h with h | h <;> subst h <;> exact ⟨rfl, rfl, rfl, rfl, rfl, rfl, rfl⟩

/-- C3 witness: the amended statement at concrete 401 and 500 responses. -/
theorem claim_C3_error_statuses_witness :
    get_request ⟨401, "Token invalid", .null⟩
      = .clickupError "Token invalid" (.code 401)
    ∧ post_request ⟨401, "Token invalid", .null⟩
      = .clickupError "Token invalid" (.code 401)
    ∧ put_request ⟨401, "Token invalid", .null⟩
      = .clickupError "Token invalid" (.code 401)
    ∧ delete_request ⟨401, "Token invalid", .null⟩ = .nameError "response_json"
    ∧ post_request ⟨500, "Server error", .null⟩
      = .clickupError "Server error" (.code 500)
    ∧ put_request ⟨500, "Server error", .null⟩ = .ok none
    ∧ delete_request ⟨500, "Server error", .null⟩ = .nameError "response_json" :=
  claim_C3_error_statuses ⟨401, "Token invalid", .null⟩ (Or.inr rfl)
    ⟨500, "Server error", .null⟩ rfl

/-- C4: the claim says `__delete_request` raises `ClickupClientError` with
the server's message on every non-2xx response.  In the code the error
branch reads `response_json['err']` but `response_json` is never assigned
in this method, so every status at or above 400 raises `NameError`
instead; and since `response.ok` means status < 400, a 3xx response does
not raise at all but returns the status code. -/
theorem claim_C4_delete_name_error :
    delete_request ⟨400, "Team not authorized", .null⟩ = .nameError "response_json"
    ∧ delete_request ⟨429, "Rate limit", .null⟩ = .nameError "response_json"
    ∧ delete_request ⟨301, "", .null⟩ = .ok 301 :=
  ⟨rfl, rfl, rfl⟩

/-- C5 counterexample: the claim says a GET response that is not 429, not
400, not 401 and not 2xx returns `None`, but `requests.Response.ok` is
true for every status below 400, so a 304 response returns the parsed
body. -/
theorem claim_C5_counterexample :
    get_request ⟨304, "", .obj [("id", .str "1")]⟩
      = .ok (some (.obj [("id", .str "1")])) := rfl

/-- C5 (amended): a GET response with status at least 400 and different
from 429, 400 and 401 silently falls through and returns `None`; any
status below 400 (including non-2xx codes such as 1xx and 3xx) satisfies
`response.ok` and returns the parsed body. -/
theorem claim_C5_get_fallthrough (r : Response)
    (hge : 400 ≤ r.status_code) (h429 : r.status_code ≠ 429)
    (h400 : r.status_code ≠ 400) (h401 : r.status_code ≠ 401)
    (r2 : Response) (hlt : r2.status_code < 400) :
    get_request r = .ok none ∧ get_request r2 = .ok (some r2.json) := by
  constructor
  · have hok : r.ok = false := by
      simp only [Response.ok, decide_eq_false_iff_not, Nat.not_lt]
      exact hge
    simp [get_request, h429, h400, h401, hok]
  · have h429b : r2.status_code ≠ 429 := by omega
    have h400b : r2.status_code ≠ 400 := by omega
    have h401b : r2.status_code ≠ 401 := by omega
    have hok : r2.ok = true := by
      simpa only [Response.ok, decide_eq_true_eq] using hlt
    simp [get_request, h429b, h400b, h401b, hok]

/-- C5 witness: the amended statement at a concrete 404 response and a
concrete 304 response. -/
theorem claim_C5_get_fallthrough_witness :
    get_request ⟨404, "", .null⟩ = .ok none
    ∧ get_request ⟨304, "", .str "cached"⟩ = .ok (some (.str "cached")) :=
  claim_C5_get_fallthrough ⟨404, "", .null⟩ (by decide) (by decide) (by decide)
    (by decide) ⟨304, "", .str "cached"⟩ (by decide)

/-- The `assignees` entry of `update_task` is present exactly when at
least one of the two list arguments is truthy (non-`None` and
non-empty). -/
theorem assigneesVal_isSome (a r : Option (List JVal)) :
    (assigneesVal a r).isSome = (listTruthy a || listTruthy r) := by
  unfold assigneesVal
  cases ha : listTruthy a <;> cases hr : listTruthy r <;> simp [ha, hr]

/-- C6 counterexample: the claim says every parameter passed with a
non-null value is present in the serialized body, but
`update_task(add_assignees=[])` — a non-null argument — produces an empty
body: the `if add_assignees` chain uses Python truthiness, so an empty
list is treated as absent and no key at all is serialized for it. -/
theorem claim_C6_counterexample :
    update_task none none none none none none (some []) none = .ok [] := rfl

/-- C6 (amended): for `create_task`, `update_comment` and
`create_task_comment`, and for the directly serialized parameters of
`update_task` (`name`, `description`, `status`, `priority`,
`time_estimate`, `archived`), a parameter is a key of the serialized body
exactly when it is non-null; `update_task`'s `add_assignees` and
`remove_assignees` are never keys themselves but are folded into a single
`assignees` key, present exactly when at least one of the two is non-null
and non-empty. -/
theorem claim_C6_optional_params (specMillis : String → Int)
    (n d : Option JVal) (pr : Option Int) (asg tgs st : Option JVal)
    (dd : Option String) (sd na : Option JVal)
    (hc : priorityOutOfRange pr = false)
    (un ud us : Option JVal) (up : Option Int) (ut ua : Option JVal)
    (uadd urem : Option (List JVal)) (hu : priorityOutOfRange up = false)
    (cc ca cr : Option JVal) (tc ta tn : Option JVal) :
    create_task specMillis n d pr asg tgs st dd sd na
      = .ok (create_task_body specMillis n d pr asg tgs st dd sd na)
    ∧ hasKey (create_task_body specMillis n d pr asg tgs st dd sd na) "name" = n.isSome
    ∧ hasKey (create_task_body specMillis n d pr asg tgs st dd sd na) "description" = d.isSome
    ∧ hasKey (create_task_body specMillis n d pr asg tgs st dd sd na) "priority" = pr.isSome
    ∧ hasKey (create_task_body specMillis n d pr asg tgs st dd sd na) "assignees" = asg.isSome
    ∧ hasKey (create_task_body specMillis n d pr asg tgs st dd sd na) "tags" = tgs.isSome
    ∧ hasKey (create_task_body specMillis n d pr asg tgs st dd sd na) "status" = st.isSome
    ∧ hasKey (create_task_body specMillis n d pr asg tgs st dd sd na) "due_date" = dd.isSome
    ∧ hasKey (create_task_body specMillis n d pr asg tgs st dd sd na) "start_date" = sd.isSome
    ∧ hasKey (create_task_body specMillis n d pr asg tgs st dd sd na) "notify_all" = na.isSome
    ∧ update_task un ud us up ut ua uadd urem
      = .ok (update_task_body un ud us up ut ua uadd urem)
    ∧ hasKey (update_task_body un ud us up ut ua uadd urem) "name" = un.isSome
    ∧ hasKey (update_task_body un ud us up ut ua uadd urem) "description" = ud.isSome
    ∧ hasKey (update_task_body un ud us up ut ua uadd urem) "status" = us.isSome
    ∧ hasKey (update_task_body un ud us up ut ua uadd urem) "priority" = up.isSome
    ∧ hasKey (update_task_body un ud us up ut ua uadd urem) "time_estimate" = ut.isSome
    ∧ hasKey (update_task_body un ud us up ut ua uadd urem) "archived" = ua.isSome
    ∧ hasKey (update_task_body un ud us up ut ua uadd urem) "assignees"
      = (listTruthy uadd || listTruthy urem)
    ∧ hasKey (update_task_body un ud us up ut ua uadd urem) "add_assignees" = false
    ∧ hasKey (update_task_body un ud us up ut ua uadd urem) "remove_assignees" = false
    ∧ hasKey (update_comment_body cc ca cr) "comment_text" = cc.isSome
    ∧ hasKey (update_comment_body cc ca cr) "assignee" = ca.isSome
    ∧ hasKey (update_comment_body cc ca cr) "resolved" = cr.isSome
    ∧ hasKey (create_task_comment_body tc ta tn) "comment_text" = tc.isSome
    ∧ hasKey (create_task_comment_body tc ta tn) "assignee" = ta.isSome
    ∧ hasKey (create_task_comment_body tc ta tn) "notify_all" = tn.isSome := by
  repeat' apply And.intro
  all_goals
    simp [create_task, update_task, hc, hu, create_task_body, update_task_body,
      update_comment_body, create_task_comment_body, create_task_args,
      update_task_args, hasKey_pyFilterNone, assigneesVal_isSome]

/-- C6 witness: the amended statement at concrete arguments, with both
priority preconditions discharged. -/
theorem claim_C6_optional_params_witness :
    priorityOutOfRange (some 2) = false
    ∧ priorityOutOfRange none = false
    ∧ (create_task (fun _ => 0) (some (.str "t")) none (some 2) none none none
        (some "tomorrow") none (some (.bool true))
      = .ok (create_task_body (fun _ => 0) (some (.str "t")) none (some 2) none none none
        (some "tomorrow") none (some (.bool true)))
    ∧ hasKey (create_task_body (fun _ => 0) (some (.str "t")) none (some 2) none none none
        (some "tomorrow") none (some (.bool true))) "name" = true
    ∧ hasKey (create_task_body (fun _ => 0) (some (.str "t")) none (some 2) none none none
        (some "tomorrow") none (some (.bool true))) "description" = false
    ∧ hasKey (create_task_body (fun _ => 0) (some (.str "t")) none (some 2) none none none
        (some "tomorrow") none (some (.bool true))) "priority" = true
    ∧ hasKey (create_task_body (fun _ => 0) (some (.str "t")) none (some 2) none none none
        (some "tomorrow") none (some (.bool true))) "assignees" = false
    ∧ hasKey (create_task_body (fun _ => 0) (some (.str "t")) none (some 2) none none none
        (some "tomorrow") none (some (.bool true))) "tags" = false
    ∧ hasKey (create_task_body (fun _ => 0) (some (.str "t")) none (some 2) none none none
        (some "tomorrow") none (some (.bool true))) "status" = false
    ∧ hasKey (create_task_body (fun _ => 0) (some (.str "t")) none (some 2) none none none
        (some "tomorrow") none (some (.bool true))) "due_date" = true
    ∧ hasKey (create_task_body (fun _ => 0) (some (.str "t")) none (some 2) none none none
        (some "tomorrow") none (some (.bool true))) "start_date" = false
    ∧ hasKey (create_task_body (fun _ => 0) (some (.str "t")) none (some 2) none none none
        (some "tomorrow") none (some (.bool true))) "notify_all" = true
    ∧ update_task none (some (.str "d")) none none none none (some [.str "5"]) none
      = .ok (update_task_body none (some (.str "d")) none none none none
          (some [.str "5"]) none)
    ∧ hasKey (update_task_body none (some (.str "d")) none none none none
        (some [.str "5"]) none) "name" = false
    ∧ hasKey (update_task_body none (some (.str "d")) none none none none
        (some [.str "5"]) none) "description" = true
    ∧ hasKey (update_task_body none (some (.str "d")) none none none none
        (some [.str "5"]) none) "status" = false
    ∧ hasKey (update_task_body none (some (.str "d")) none none none none
        (some [.str "5"]) none) "priority" = false
    ∧ hasKey (update_task_body none (some (.str "d")) none none none none
        (some [.str "5"]) none) "time_estimate" = false
    ∧ hasKey (update_task_body none (some (.str "d")) none none none none
        (some [.str "5"]) none) "archived" = false
    ∧ hasKey (update_task_body none (some (.str "d")) none none none none
        (some [.str "5"]) none) "assignees"
      = (listTruthy (some [.str "5"]) || listTruthy none)
    ∧ hasKey (update_task_body none (some (.str "d")) none none none none
        (some [.str "5"]) none) "add_assignees" = false
    ∧ hasKey (update_task_body none (some (.str "d")) none none none none
        (some [.str "5"]) none) "remove_assignees" = false
    ∧ hasKey (update_comment_body (some (.str "c")) none (some (.bool false)))
        "comment_text" = true
    ∧ hasKey (update_comment_body (some (.str "c")) none (some (.bool false)))
        "assignee" = false
    ∧ hasKey (update_comment_body (some (.str "c")) none (some (.bool false)))
        "resolved" = true
    ∧ hasKey (create_task_comment_body (some (.str "c")) none (some (.bool true)))
        "comment_text" = true
    ∧ hasKey (create_task_comment_body (some (.str "c")) none (some (.bool true)))
        "assignee" = false
    ∧ hasKey (create_task_comment_body (some (.str "c")) none (some (.bool true)))
        "notify_all" = true) :=
  ⟨rfl, rfl,
    claim_C6_optional_params (fun _ => 0) (some (.str "t")) none (some 2) none none
      none (some "tomorrow") none (some (.bool true)) rfl
      none (some (.str "d")) none none none none (some [.str "5"]) none rfl
      (some (.str "c")) none (some (.bool false))
      (some (.str "c")) none (some (.bool true))⟩

/-- C7: the claim says the `create_list` body is exactly the non-null
subset of {name, content, due_date, priority, status}.  The code instead
builds a fixed dict literal: `priority` — accepted and documented by the
method — never enters the body, and null parameters are kept as `null`
entries rather than excluded.  This theorem evaluates the body at
`name="n"`, `priority=1`, the rest `None`. -/
theorem claim_C7_create_list_drops_priority :
    create_list_data (some (.str "n")) none none (some 1) none
      = [("name", .str "n"), ("content", .null), ("due_date", .null),
         ("status", .null)]
    ∧ hasKey (create_list_data (some (.str "n")) none none (some 1) none)
        "priority" = false :=
  ⟨rfl, rfl⟩

/-- C8 counterexample: the claim says both date parameters (`due_date` and
`start_date`) are converted to epoch milliseconds, but `create_task` only
reassigns `due_date` through `fuzzy_time_to_unix`; the same expression
passed as `start_date` reaches the serialized body as the raw string. -/
theorem claim_C8_counterexample :
    create_task (fun _ => 1767139200000) none none none none none none
        (some "tomorrow") (some (.str "tomorrow")) none
      = .ok [("due_date", .num 1767139200000),
             ("start_date", .str "tomorrow")] := rfl

/-- C8 (amended): only `due_date` is converted — for every non-empty
`due_date` expression the serialized value is
`fuzzy_time_to_unix specMillis due_date`, while `start_date` is serialized
completely unchanged, whatever value it holds. -/
theorem claim_C8_only_due_date_converted (specMillis : String → Int)
    (n d : Option JVal) (pr : Option Int) (asg tgs st : Option JVal)
    (dd : String) (hdd : dd.isEmpty = false) (sd : JVal) (na : Option JVal) :
    getKey (create_task_body specMillis n d pr asg tgs st (some dd) (some sd) na)
        "due_date" = some (fuzzy_time_to_unix specMillis dd)
    ∧ getKey (create_task_body specMillis n d pr asg tgs st (some dd) (some sd) na)
        "start_date" = some sd := by
  constructor <;>
    simp [create_task_body, create_task_args, getKey_pyFilterNone, List.find?, hdd]

/-- C8 witness: the amended statement at `due_date = "tomorrow"`,
`start_date = "next week"`. -/
theorem claim_C8_only_due_date_converted_witness :
    ("tomorrow" : String).isEmpty = false
    ∧ (getKey (create_task_body (fun _ => 99) none none none none none none
        (some "tomorrow") (some (.str "next week")) none) "due_date"
      = some (fuzzy_time_to_unix (fun _ => 99) "tomorrow")
    ∧ getKey (create_task_body (fun _ => 99) none none none none none none
        (some "tomorrow") (some (.str "next week")) none) "start_date"
      = some (.str "next week")) :=
  ⟨rfl, claim_C8_only_due_date_converted (fun _ => 99) none none none none none
    none "tomorrow" rfl (.str "next week") none⟩

/-- C9: every dispatcher method builds its path as
`url_join(API_URL, model, *additionalpath)` against the module-level
constant, so the path is independent of the `api_url` stored on the
client instance and always extends the fixed API root. -/
theorem claim_C9_api_url_ignored (c₁ c₂ : ClickUpClient) (model : String)
    (additionalpath : List String) :
    request_path c₁ model additionalpath = request_path c₂ model additionalpath
    ∧ request_path c₁ model additionalpath
      = API_URL ++ model ++ String.intercalate "/" additionalpath :=
  ⟨rfl, rfl⟩

/-- C10: when `os.path.exists(file_path)` is false, `upload_attachment`
skips its whole body: no HTTP request is issued, no error is raised, and
the method returns `None`. -/
theorem claim_C10_upload_missing_file (exists_fs : String → Bool)
    (build : JVal → JVal) (file_path : String) (post_response : Response)
    (h : exists_fs file_path = false) :
    upload_attachment exists_fs build file_path post_response = (0, .ok none) := by
  simp [upload_attachment, h]

/-- C10 witness: a filesystem on which no path exists, a concrete file
path and a concrete would-be response. -/
theorem claim_C10_upload_missing_file_witness :
    (fun _ => false : String → Bool) "report.pdf" = false
    ∧ upload_attachment (fun _ => false) (fun j => j) "report.pdf"
        ⟨200, "", .null⟩ = (0, .ok none) :=
  ⟨rfl, claim_C10_upload_missing_file (fun _ => false) (fun j => j) "report.pdf"
    ⟨200, "", .null⟩ rfl⟩

end Clickupy
